import Mathlib

/-!
Verification development for the riptide engine abstraction module
(riptide/engine/abstract.py).

The filesystem side effects of the default helpers path_rm and path_copy are
embedded with explicit state passing: a filesystem is a flat association list
from canonical absolute paths (component lists) to entries, and every Python
call that can raise is a Lean function into Except. The abstract lifecycle
methods (start_project, stop_project, pull_images) have no implementation in
the module; where a claim is about them, their behavior is modelled from the
specification and the contract docstrings, and each such definition is marked
with a doc comment starting with Modelled from the spec.
-/

namespace Riptide

/-- Canonical absolute path, as a list of path components. -/
abbrev Path := List String

/-- Filesystem entry: a regular file with content, or a directory. -/
inductive Entry
| file (content : String)
| dir
deriving DecidableEq

/-- Filesystem state: association list from canonical paths to entries.
Lookup takes the first match, so prepending an entry overwrites. -/
abbrev FS := List (Path × Entry)

/-- Embeds the Project object as used by abstract.py: only its root directory
matters for the path helpers. -/
structure Project where
  root : Path
deriving DecidableEq

/-- Python exceptions that the embedded filesystem operations can raise. -/
inductive PyErr
| permissionError
| fileNotFoundError
| isADirectoryError
| notADirectoryError
| distutilsFileError
deriving DecidableEq

/-- First-match lookup in a filesystem association list. -/
def lookupFS : FS → Path → Option Entry
| [], _ => none
| kv :: rest, p => if kv.1 = p then some kv.2 else lookupFS rest p

/-- Embeds os.path.isfile. -/
def isfile (fs : FS) (p : Path) : Bool :=
  match lookupFS fs p with
  | some (Entry.file _) => true
  | _ => false

/-- Embeds os.path.isdir. -/
def isdir (fs : FS) (p : Path) : Bool :=
  match lookupFS fs p with
  | some Entry.dir => true
  | _ => false

/-- Embeds os.path.exists. -/
def existsFS (fs : FS) (p : Path) : Bool := (lookupFS fs p).isSome

/-- Writes an entry at a path, shadowing any previous entry there. -/
def setE (fs : FS) (p : Path) (e : Entry) : FS := (p, e) :: fs

/-- Removes every entry stored at exactly the given path. -/
def removeKey : FS → Path → FS
| [], _ => []
| kv :: rest, p => if kv.1 = p then removeKey rest p else kv :: removeKey rest p

/-- Removes every entry at the given path or below it. -/
def removeTree : FS → Path → FS
| [], _ => []
| kv :: rest, p => if p.isPrefixOf kv.1 then removeTree rest p else kv :: removeTree rest p

/-- Embeds os.remove: deletes a regular file; raises FileNotFoundError if the
path is absent and IsADirectoryError if it is a directory. -/
def os_remove (fs : FS) (p : Path) : Except PyErr FS :=
  match lookupFS fs p with
  | some (Entry.file _) => Except.ok (removeKey fs p)
  | some Entry.dir => Except.error PyErr.isADirectoryError
  | none => Except.error PyErr.fileNotFoundError

/-- Embeds shutil.rmtree with default arguments: deletes a directory tree;
raises FileNotFoundError if the path is absent and NotADirectoryError if it
is a regular file. -/
def rmtree (fs : FS) (p : Path) : Except PyErr FS :=
  match lookupFS fs p with
  | some Entry.dir => Except.ok (removeTree fs p)
  | some (Entry.file _) => Except.error PyErr.notADirectoryError
  | none => Except.error PyErr.fileNotFoundError

/-- Last path component, as os.path.basename on a canonical path. -/
def basename (p : Path) : String := p.getLastD ""

/-- Embeds shutil.copy2: copies a regular file. If the destination is an
existing directory the file is copied into it under its base name; an
existing destination file is silently overwritten. -/
def copy2 (fs : FS) (src dst : Path) : Except PyErr FS :=
  match lookupFS fs src with
  | some (Entry.file c) =>
    let d := if isdir fs dst then dst ++ [basename src] else dst
    if isdir fs d then Except.error PyErr.isADirectoryError
    else Except.ok (setE fs d (Entry.file c))
  | some Entry.dir => Except.error PyErr.isADirectoryError
  | none => Except.error PyErr.fileNotFoundError

/-- Entries strictly below src, relocated below dst. -/
def subtreeCopied (fs : FS) (src dst : Path) : FS :=
  (fs.filter (fun kv => src.isPrefixOf kv.1 && kv.1 != src)).map
    (fun kv => (dst ++ kv.1.drop src.length, kv.2))

/-- Embeds distutils.dir_util.copy_tree: requires src to be a directory;
creating the destination fails if it already exists as a regular file;
otherwise the source tree is copied, silently merging into an existing
destination directory with copied entries shadowing previous ones. -/
def copy_tree (fs : FS) (src dst : Path) : Except PyErr FS :=
  if !(isdir fs src) then Except.error PyErr.distutilsFileError
  else if isfile fs dst then Except.error PyErr.distutilsFileError
  else Except.ok ((dst, Entry.dir) :: (subtreeCopied fs src dst ++ fs))

/-- Modelled from the spec: riptide.config.files.path_in_project is imported
by abstract.py but its source is not under src. Per the PathGuard section of
the spec it is true iff the canonicalized path is equal to or a descendant of
the project root directory; on canonical component lists that is exactly the
component-wise prefix test. -/
def path_in_project (path : Path) (project : Project) : Bool :=
  project.root.isPrefixOf path

/-- Embeds AbstractEngine.path_rm: raise PermissionError unless the path is
in the project, then os.remove for a regular file, else shutil.rmtree. -/
def path_rm (fs : FS) (path : Path) (project : Project) : Except PyErr FS :=
  if !(path_in_project path project) then Except.error PyErr.permissionError
  else if isfile fs path then os_remove fs path
  else rmtree fs path

/-- Embeds AbstractEngine.path_copy: raise PermissionError unless the
destination is in the project, then shutil.copy2 for a regular source file,
else distutils copy_tree. -/
def path_copy (fs : FS) (fromm toP : Path) (project : Project) : Except PyErr FS :=
  if !(path_in_project toP project) then Except.error PyErr.permissionError
  else if isfile fs fromm then copy2 fs fromm toP
  else copy_tree fs fromm toP

/-- Embeds the module-level constant RIPTIDE_HOST_HOSTNAME of abstract.py,
a literal in the module. -/
def RIPTIDE_HOST_HOSTNAME : String := "host.riptide.internal"

/-- Embeds the Python class hierarchy relevant to the module: BaseException,
its subclass Exception, and the classes declared in abstract.py. -/
inductive PyClass
| baseException
| exception
| execError
deriving DecidableEq

/-- Method resolution order of each class, up to BaseException: abstract.py
line 15 declares ExecError with base class BaseException, not Exception. -/
def mro : PyClass → List PyClass
| PyClass.baseException => [PyClass.baseException]
| PyClass.exception => [PyClass.exception, PyClass.baseException]
| PyClass.execError => [PyClass.execError, PyClass.baseException]

/-- Python issubclass, on the embedded hierarchy. -/
def isSubclass (c d : PyClass) : Bool := (mro c).contains d

/-- Whether a raised instance of class c is caught by a generic handler
written as except Exception. -/
def exceptExceptionCatches (c : PyClass) : Bool := isSubclass c PyClass.exception

/-- One raises clause of a contract docstring: the named exception type, and
whether the docstring marks that type as a todo placeholder. -/
structure RaisesDecl where
  exceptionType : String
  isTodoPlaceholder : Bool
deriving DecidableEq

/-- Embeds the raises declaration of AbstractEngine.cmd_in_service, lines
152 and 153 of abstract.py: the docstring reads todo exception type, and
names the placeholder XyzException for the service-not-running failure. -/
def cmd_in_service_raises_decl : RaisesDecl :=
  { exceptionType := "XyzException", isTodoPlaceholder := true }

/-- Embeds the set of exception classes defined in abstract.py: the module
defines only ExecError. -/
def abstract_module_exception_classes : List String := ["ExecError"]

/-- Container image referenced by a service or command of a project, with
its availability in the remote repository. -/
structure Image where
  name : String
  available : Bool
deriving DecidableEq

/-- Status report emitted through the update callback for one image. -/
inductive PullReport
| pulled (image : String)
| warningNotFound (image : String)
deriving DecidableEq

/-- Failure of a raw backend pull attempt. -/
inductive PullErr
| imageNotFound
deriving DecidableEq

/-- Modelled from the spec: the raw pull of a single image from the remote
repository, which fails when the image is not found there. -/
def attempt_pull (img : Image) : Except PullErr Unit :=
  if img.available then Except.ok () else Except.error PullErr.imageNotFound

/-- Modelled from the spec: processing of one image inside pull_images. A
pull failure for a missing image is converted into a warning report instead
of being propagated. -/
def pull_one (img : Image) : PullReport :=
  match attempt_pull img with
  | Except.ok _ => PullReport.pulled img.name
  | Except.error PullErr.imageNotFound => PullReport.warningNotFound img.name

/-- Modelled from the spec: pull_images is abstract in abstract.py. Per the
contract docstring it pulls every image referenced by the services and
commands of the project, reports a warning through the update callback for
an image missing from the remote repository, and never raises for that
reason; the returned list embeds the reports sent to the update callback. -/
def pull_images (images : List Image) : Except PullErr (List PullReport) :=
  Except.ok (images.map pull_one)

/-- Per-service lifecycle states of the contract state machine. -/
inductive SvcState
| stopped
| starting
| running
| stopping
deriving DecidableEq

/-- Observable backend state for one service: lifecycle state and the number
of container resources created for it. -/
structure Svc where
  state : SvcState
  containers : Nat
deriving DecidableEq

/-- One result step emitted into the multi-result queue for one target. -/
inductive ResultStep
| progress (message : String)
| success
| failure (message : String)
deriving DecidableEq

/-- Modelled from the spec: the per-service effect of start_project, which
is abstract in abstract.py. Per the spec state machine, starting an already
running service is a no-op that immediately emits a terminal success result;
otherwise the service is driven to running, creating one container. -/
def start_service (s : Svc) : Svc × List ResultStep :=
  match s.state with
  | SvcState.running => (s, [ResultStep.success])
  | _ => ({ state := SvcState.running, containers := s.containers + 1 }, [ResultStep.success])

/-- Modelled from the spec: the per-service effect of stop_project, which is
abstract in abstract.py. Stopping an already stopped service is a no-op that
immediately emits a terminal success result; otherwise the service is driven
to stopped and its containers are released. -/
def stop_service (s : Svc) : Svc × List ResultStep :=
  match s.state with
  | SvcState.stopped => (s, [ResultStep.success])
  | _ => ({ state := SvcState.stopped, containers := 0 }, [ResultStep.success])

/-- Modelled from the spec: start_project over a backend state mapping
service names to service states; it applies the per-service start to each
named service and returns the multi-result queue, one entry of result steps
per requested service. -/
def start_project (st : String → Svc) (services : List String) :
    (String → Svc) × List (String × List ResultStep) :=
  (fun n => if n ∈ services then (start_service (st n)).1 else st n,
   services.map (fun n => (n, (start_service (st n)).2)))

/-- Modelled from the spec: stop_project over a backend state, symmetric to
start_project. -/
def stop_project (st : String → Svc) (services : List String) :
    (String → Svc) × List (String × List ResultStep) :=
  (fun n => if n ∈ services then (stop_service (st n)).1 else st n,
   services.map (fun n => (n, (stop_service (st n)).2)))

/-- Concrete filesystem used by witnesses: a project root r containing a
file f, a directory d with a file below it. -/
def fsW : FS :=
  [(["r"], Entry.dir), (["r", "f"], Entry.file "data"),
   (["r", "d"], Entry.dir), (["r", "d", "g"], Entry.file "sub")]

/-- Concrete filesystem exhibiting the path_copy overwrite behavior: both
the source a and the destination b exist as regular files under the root. -/
def fsC4 : FS :=
  [(["r"], Entry.dir), (["r", "a"], Entry.file "new"), (["r", "b"], Entry.file "old")]

/-- Concrete filesystem with a regular file living outside the project
root r, at path e x. -/
def fsC9 : FS := (["e", "x"], Entry.file "ext") :: fsW

/-- Lookup after removeKey at the removed path yields nothing. -/
theorem lookupFS_removeKey (fs : FS) (p : Path) : lookupFS (removeKey fs p) p = none := by
  induction fs with
  | nil => rfl
  | cons kv rest ih =>
    simp only [removeKey]
    by_cases h : kv.1 = p
    · simpa [h] using ih
    · simpa [lookupFS, h] using ih

/-- Lookup after removeTree at any path below the removed one yields
nothing. -/
theorem lookupFS_removeTree (fs : FS) (p q : Path) (h : p.isPrefixOf q = true) :
    lookupFS (removeTree fs p) q = none := by
  induction fs with
  | nil => rfl
  | cons kv rest ih =>
    simp only [removeTree]
    by_cases hp : p.isPrefixOf kv.1 = true
    · simpa [hp] using ih
    · have hne : ¬ (kv.1 = q) := by
        intro he
        exact hp (by rw [he]; exact h)
      simpa [lookupFS, hne, hp] using ih

/-- Claim C1: for every path that is not equal to and not a descendant of
the project root directory, path_rm raises PermissionError, and path_copy
with such a path as destination raises PermissionError; in the
state-passing embedding the error is returned before any filesystem
operation runs, so no mutated filesystem is produced in either case. -/
theorem c1_boundary_violation_raises (fs : FS) (path fromm : Path) (project : Project)
    (h : path_in_project path project = false) :
    path_rm fs path project = Except.error PyErr.permissionError ∧
    path_copy fs fromm path project = Except.error PyErr.permissionError := by
  constructor
  · simp [path_rm, h]
  · simp [path_copy, h]

/-- Witness for c1_boundary_violation_raises at a concrete input. -/
theorem c1_witness :
    path_in_project ["outside"] (Project.mk ["r"]) = false ∧
    (path_rm fsW ["outside"] (Project.mk ["r"]) = Except.error PyErr.permissionError ∧
     path_copy fsW ["r", "f"] ["outside"] (Project.mk ["r"]) =
       Except.error PyErr.permissionError) :=
  ⟨by decide, c1_boundary_violation_raises fsW ["outside"] ["r", "f"]
    (Project.mk ["r"]) (by decide)⟩

/-- Claim C3 evidence: a path inside the project boundary that does not
exist on the filesystem sends path_rm into the shutil.rmtree branch, which
raises FileNotFoundError; the path_rm docstring instead promises a return
without an exception when the path did not exist. -/
theorem c3_missing_path_raises :
    path_in_project ["r", "missing"] (Project.mk ["r"]) = true ∧
    existsFS fsW ["r", "missing"] = false ∧
    path_rm fsW ["r", "missing"] (Project.mk ["r"]) = Except.error PyErr.fileNotFoundError :=
  ⟨by decide, by decide, rfl⟩

/-- Claim C4 counterexample: with destination b existing as a regular file
inside the project and source a a regular file, path_copy succeeds and
silently replaces the content of b by the content of a. -/
theorem c4_counterexample :
    existsFS fsC4 ["r", "b"] = true ∧
    lookupFS fsC4 ["r", "b"] = some (Entry.file "old") ∧
    path_copy fsC4 ["r", "a"] ["r", "b"] (Project.mk ["r"]) =
      Except.ok (setE fsC4 ["r", "b"] (Entry.file "new")) ∧
    lookupFS (setE fsC4 ["r", "b"] (Entry.file "new")) ["r", "b"] =
      some (Entry.file "new") :=
  ⟨by decide, by decide, rfl, by decide⟩

/-- Claim C4 amended: path_copy does not check whether the destination
already exists; when both the source and the in-project destination are
regular files, the copy succeeds and the destination content is silently
overwritten with the source content. -/
theorem c4_amended_silent_overwrite (fs : FS) (fromm toP : Path) (project : Project)
    (c cOld : String)
    (hto : path_in_project toP project = true)
    (hf : lookupFS fs fromm = some (Entry.file c))
    (ht : lookupFS fs toP = some (Entry.file cOld)) :
    path_copy fs fromm toP project = Except.ok (setE fs toP (Entry.file c)) ∧
    lookupFS (setE fs toP (Entry.file c)) toP = some (Entry.file c) := by
  have hif : isfile fs fromm = true := by simp [isfile, hf]
  have hdir : isdir fs toP = false := by simp [isdir, ht]
  constructor
  · simp [path_copy, hto, hif, copy2, hf, hdir]
  · simp [setE, lookupFS]

/-- Witness for c4_amended_silent_overwrite at a concrete input. -/
theorem c4_amended_witness :
    (path_in_project ["r", "b"] (Project.mk ["r"]) = true ∧
     lookupFS fsC4 ["r", "a"] = some (Entry.file "new") ∧
     lookupFS fsC4 ["r", "b"] = some (Entry.file "old")) ∧
    (path_copy fsC4 ["r", "a"] ["r", "b"] (Project.mk ["r"]) =
       Except.ok (setE fsC4 ["r", "b"] (Entry.file "new")) ∧
     lookupFS (setE fsC4 ["r", "b"] (Entry.file "new")) ["r", "b"] =
       some (Entry.file "new")) :=
  ⟨⟨by decide, by decide, by decide⟩,
   c4_amended_silent_overwrite fsC4 ["r", "a"] ["r", "b"] (Project.mk ["r"])
     "new" "old" (by decide) (by decide) (by decide)⟩

/-- Claim C5 counterexample: the contract declaration of cmd_in_service in
abstract.py does not name ServiceNotRunningError; its docstring declares the
exception type for the service-not-running failure as a todo placeholder
named XyzException, and the module defines no ServiceNotRunningError class. -/
theorem c5_counterexample :
    cmd_in_service_raises_decl.exceptionType ≠ "ServiceNotRunningError" ∧
    ¬ ("ServiceNotRunningError" ∈ abstract_module_exception_classes) :=
  ⟨by decide, by decide⟩

/-- Claim C5 amended: the contract documents that cmd_in_service raises when
the target service is not running, but the exception type is left as an
explicit todo placeholder named XyzException in the docstring, and the only
exception class defined by the module is ExecError. -/
theorem c5_amended_todo_exception_type :
    cmd_in_service_raises_decl.isTodoPlaceholder = true ∧
    cmd_in_service_raises_decl.exceptionType = "XyzException" ∧
    abstract_module_exception_classes = ["ExecError"] :=
  ⟨rfl, rfl, rfl⟩

/-- Claim C8: ExecError is declared with base class BaseException and is not
a subclass of Exception, so a generic handler written as except Exception
does not catch an ExecError. -/
theorem c8_execerror_escapes_generic_handler :
    isSubclass PyClass.execError PyClass.baseException = true ∧
    isSubclass PyClass.execError PyClass.exception = false ∧
    exceptExceptionCatches PyClass.execError = false :=
  ⟨rfl, rfl, rfl⟩

/-- Claim C10: the fixed host-bridge hostname is the module-level literal
constant RIPTIDE_HOST_HOSTNAME with the exact value host.riptide.internal. -/
theorem c10_host_hostname_literal :
    RIPTIDE_HOST_HOSTNAME = "host.riptide.internal" := rfl

/-- Claim C2: for an existing path inside the project root, path_rm succeeds
and removes it, a regular file by os.remove and anything else by
shutil.rmtree; and for an existing source and a fresh in-project
destination, path_copy succeeds and the destination exists afterwards, with
a regular source file copied content-for-content. -/
theorem c2_in_project_operations_succeed (fs : FS) (p fromm toP : Path) (project : Project)
    (hp : path_in_project p project = true)
    (hex : existsFS fs p = true)
    (hto : path_in_project toP project = true)
    (hfrom : existsFS fs fromm = true)
    (hnoto : lookupFS fs toP = none) :
    (∃ fs1, path_rm fs p project = Except.ok fs1 ∧ existsFS fs1 p = false) ∧
    (∃ fs2, path_copy fs fromm toP project = Except.ok fs2 ∧ existsFS fs2 toP = true ∧
      (isfile fs fromm = true → lookupFS fs2 toP = lookupFS fs fromm)) := by
  constructor
  · cases hl : lookupFS fs p with
    | none => simp [existsFS, hl] at hex
    | some e =>
      cases e with
      | file c =>
        refine ⟨removeKey fs p, ?_, ?_⟩
        · simp [path_rm, hp, isfile, hl, os_remove]
        · simp [existsFS, lookupFS_removeKey]
      | dir =>
        refine ⟨removeTree fs p, ?_, ?_⟩
        · simp [path_rm, hp, isfile, hl, rmtree]
        · have hpp : p.isPrefixOf p = true := List.isPrefixOf_iff_prefix.mpr List.prefix_rfl
          simp [existsFS, lookupFS_removeTree fs p p hpp]
  · cases hl : lookupFS fs fromm with
    | none => simp [existsFS, hl] at hfrom
    | some e =>
      cases e with
      | file c =>
        have hif : isfile fs fromm = true := by simp [isfile, hl]
        have hdto : isdir fs toP = false := by simp [isdir, hnoto]
        refine ⟨setE fs toP (Entry.file c), ?_, ?_, ?_⟩
        · simp [path_copy, hto, hif, copy2, hl, hdto]
        · simp [existsFS, setE, lookupFS]
        · intro _
          simp [setE, lookupFS, hl]
      | dir =>
        have hif : isfile fs fromm = false := by simp [isfile, hl]
        have hdf : isdir fs fromm = true := by simp [isdir, hl]
        have hfto : isfile fs toP = false := by simp [isfile, hnoto]
        refine ⟨(toP, Entry.dir) :: (subtreeCopied fs fromm toP ++ fs), ?_, ?_, ?_⟩
        · simp [path_copy, hto, hif, copy_tree, hdf, hfto]
        · simp [existsFS, lookupFS]
        · intro h
          simp [hif] at h

/-- Witness for c2_in_project_operations_succeed at a concrete input. -/
theorem c2_witness :
    (path_in_project ["r", "f"] (Project.mk ["r"]) = true ∧
     existsFS fsW ["r", "f"] = true ∧
     path_in_project ["r", "t"] (Project.mk ["r"]) = true ∧
     existsFS fsW ["r", "d"] = true ∧
     lookupFS fsW ["r", "t"] = none) ∧
    ((∃ fs1, path_rm fsW ["r", "f"] (Project.mk ["r"]) = Except.ok fs1 ∧
        existsFS fs1 ["r", "f"] = false) ∧
     (∃ fs2, path_copy fsW ["r", "d"] ["r", "t"] (Project.mk ["r"]) = Except.ok fs2 ∧
        existsFS fs2 ["r", "t"] = true ∧
        (isfile fsW ["r", "d"] = true →
          lookupFS fs2 ["r", "t"] = lookupFS fsW ["r", "d"]))) :=
  ⟨⟨by decide, by decide, by decide, by decide, by decide⟩,
   c2_in_project_operations_succeed fsW ["r", "f"] ["r", "d"] ["r", "t"] (Project.mk ["r"])
     (by decide) (by decide) (by decide) (by decide) (by decide)⟩

/-- Embedded shutil.copy2 can fail, but never with PermissionError. -/
theorem copy2_ne_permissionError (fs : FS) (a b : Path) :
    copy2 fs a b ≠ Except.error PyErr.permissionError := by
  unfold copy2
  cases lookupFS fs a with
  | none => simp
  | some e =>
    cases e with
    | file c =>
      dsimp only
      split <;> first
      | (split <;> simp)
      | simp
    | dir => simp

/-- Embedded distutils copy_tree can fail, but never with PermissionError. -/
theorem copy_tree_ne_permissionError (fs : FS) (a b : Path) :
    copy_tree fs a b ≠ Except.error PyErr.permissionError := by
  unfold copy_tree
  split
  · simp
  · split <;> simp

/-- Claim C9: path_copy checks containment only for the destination. For a
source outside the project root and a destination inside it, the call never
raises PermissionError, and with an existing regular source file and a fresh
destination it proceeds to copy the out-of-boundary source into the
project. -/
theorem c9_source_containment_not_checked (fs : FS) (fromm toP : Path) (project : Project)
    (_hout : path_in_project fromm project = false)
    (hto : path_in_project toP project = true) :
    path_copy fs fromm toP project ≠ Except.error PyErr.permissionError ∧
    (∀ c, lookupFS fs fromm = some (Entry.file c) → lookupFS fs toP = none →
      path_copy fs fromm toP project = Except.ok (setE fs toP (Entry.file c))) := by
  constructor
  · have hstep : path_copy fs fromm toP project =
        if isfile fs fromm then copy2 fs fromm toP else copy_tree fs fromm toP := by
      simp [path_copy, hto]
    rw [hstep]
    split
    · exact copy2_ne_permissionError fs fromm toP
    · exact copy_tree_ne_permissionError fs fromm toP
  · intro c hf hn
    have hif : isfile fs fromm = true := by simp [isfile, hf]
    have hdto : isdir fs toP = false := by simp [isdir, hn]
    simp [path_copy, hto, hif, copy2, hf, hdto]

/-- Witness for c9_source_containment_not_checked at a concrete input. -/
theorem c9_witness :
    (path_in_project ["e", "x"] (Project.mk ["r"]) = false ∧
     path_in_project ["r", "t"] (Project.mk ["r"]) = true ∧
     lookupFS fsC9 ["e", "x"] = some (Entry.file "ext") ∧
     lookupFS fsC9 ["r", "t"] = none) ∧
    path_copy fsC9 ["e", "x"] ["r", "t"] (Project.mk ["r"]) =
      Except.ok (setE fsC9 ["r", "t"] (Entry.file "ext")) :=
  ⟨⟨by decide, by decide, by decide, by decide⟩,
   (c9_source_containment_not_checked fsC9 ["e", "x"] ["r", "t"] (Project.mk ["r"])
      (by decide) (by decide)).2 "ext" (by decide) (by decide)⟩

/-- Claim C6: pull_images completes over every image referenced by the
project without raising; a missing image, whose raw pull attempt fails with
image-not-found, is reported as a warning line and processing continues,
producing one report per image and a pulled report for every available
image. -/
theorem c6_pull_images_resilient (images : List Image) :
    ∃ reports, pull_images images = Except.ok reports ∧
      reports.length = images.length ∧
      (∀ img, img ∈ images → img.available = false →
        attempt_pull img = Except.error PullErr.imageNotFound ∧
        PullReport.warningNotFound img.name ∈ reports) ∧
      (∀ img, img ∈ images → img.available = true →
        PullReport.pulled img.name ∈ reports) := by
  refine ⟨images.map pull_one, rfl, by simp, ?_, ?_⟩
  · intro img hm hav
    constructor
    · simp [attempt_pull, hav]
    · have h1 : pull_one img = PullReport.warningNotFound img.name := by
        simp [pull_one, attempt_pull, hav]
      exact h1 ▸ List.mem_map_of_mem pull_one hm
  · intro img hm hav
    have h1 : pull_one img = PullReport.pulled img.name := by
      simp [pull_one, attempt_pull, hav]
    exact h1 ▸ List.mem_map_of_mem pull_one hm

/-- Witness for c6_pull_images_resilient at a concrete project with one
available and one missing image. -/
theorem c6_witness :
    ∃ reports,
      pull_images [Image.mk "good" true, Image.mk "missing" false] = Except.ok reports ∧
      reports.length = ([Image.mk "good" true, Image.mk "missing" false] : List Image).length ∧
      (∀ img, img ∈ [Image.mk "good" true, Image.mk "missing" false] → img.available = false →
        attempt_pull img = Except.error PullErr.imageNotFound ∧
        PullReport.warningNotFound img.name ∈ reports) ∧
      (∀ img, img ∈ [Image.mk "good" true, Image.mk "missing" false] → img.available = true →
        PullReport.pulled img.name ∈ reports) :=
  c6_pull_images_resilient [Image.mk "good" true, Image.mk "missing" false]

/-- Claim C7: start_project and stop_project are idempotent per service.
Starting a named service leaves it running with a single terminal success
result in the queue; starting it again changes nothing about the service,
in particular its container count, and again yields a single terminal
success result. Stopping is symmetric on an already stopped service. -/
theorem c7_start_stop_idempotent (st : String → Svc) (n : String) :
    ((start_project st [n]).1 n).state = SvcState.running ∧
    (start_project (start_project st [n]).1 [n]).1 n = (start_project st [n]).1 n ∧
    (start_project (start_project st [n]).1 [n]).2 = [(n, [ResultStep.success])] ∧
    (start_project st [n]).2 = [(n, [ResultStep.success])] ∧
    ((stop_project st [n]).1 n).state = SvcState.stopped ∧
    (stop_project (stop_project st [n]).1 [n]).1 n = (stop_project st [n]).1 n ∧
    (stop_project (stop_project st [n]).1 [n]).2 = [(n, [ResultStep.success])] ∧
    (stop_project st [n]).2 = [(n, [ResultStep.success])] := by
  have hstart : ∀ s : Svc, (start_service s).1.state = SvcState.running ∧
      (start_service s).2 = [ResultStep.success] := by
    intro s
    cases h : s.state <;> simp [start_service, h]
  have hstart2 : ∀ s : Svc, s.state = SvcState.running →
      start_service s = (s, [ResultStep.success]) := by
    intro s h
    simp [start_service, h]
  have hstop : ∀ s : Svc, (stop_service s).1.state = SvcState.stopped ∧
      (stop_service s).2 = [ResultStep.success] := by
    intro s
    cases h : s.state <;> simp [stop_service, h]
  have hstop2 : ∀ s : Svc, s.state = SvcState.stopped →
      stop_service s = (s, [ResultStep.success]) := by
    intro s h
    simp [stop_service, h]
  refine ⟨?_, ?_, ?_, ?_, ?_, ?_, ?_, ?_⟩
  · simpa [start_project] using (hstart (st n)).1
  · simp [start_project, hstart2 ((start_service (st n)).1) (hstart (st n)).1]
  · simp [start_project, hstart2 ((start_service (st n)).1) (hstart (st n)).1]
  · simp [start_project, (hstart (st n)).2]
  · simpa [stop_project] using (hstop (st n)).1
  · simp [stop_project, hstop2 ((stop_service (st n)).1) (hstop (st n)).1]
  · simp [stop_project, hstop2 ((stop_service (st n)).1) (hstop (st n)).1]
  · simp [stop_project, (hstop (st n)).2]

/-- Witness for c7_start_stop_idempotent at a concrete state and service
name. -/
theorem c7_witness :
    ((start_project (fun _ => Svc.mk SvcState.stopped 0) ["web"]).1 "web").state =
      SvcState.running ∧
    (start_project (start_project (fun _ => Svc.mk SvcState.stopped 0) ["web"]).1 ["web"]).1
        "web" =
      (start_project (fun _ => Svc.mk SvcState.stopped 0) ["web"]).1 "web" ∧
    (start_project (start_project (fun _ => Svc.mk SvcState.stopped 0) ["web"]).1 ["web"]).2 =
      [("web", [ResultStep.success])] ∧
    (start_project (fun _ => Svc.mk SvcState.stopped 0) ["web"]).2 =
      [("web", [ResultStep.success])] ∧
    ((stop_project (fun _ => Svc.mk SvcState.stopped 0) ["web"]).1 "web").state =
      SvcState.stopped ∧
    (stop_project (stop_project (fun _ => Svc.mk SvcState.stopped 0) ["web"]).1 ["web"]).1
        "web" =
      (stop_project (fun _ => Svc.mk SvcState.stopped 0) ["web"]).1 "web" ∧
    (stop_project (stop_project (fun _ => Svc.mk SvcState.stopped 0) ["web"]).1 ["web"]).2 =
      [("web", [ResultStep.success])] ∧
    (stop_project (fun _ => Svc.mk SvcState.stopped 0) ["web"]).2 =
      [("web", [ResultStep.success])] :=
  c7_start_stop_idempotent (fun _ => Svc.mk SvcState.stopped 0) "web"

end Riptide
